import Mathlib

/-!
A shallow embedding, in Lean 4, of the parameter-resolution and
credential-materialization engine of the data-science-pipelines operator
(`controllers/dspipeline_params.go`, `controllers/config/defaults.go`,
`api/v1alpha1/dspipeline_types.go`).

The source tree carries two revisions of `dspipeline_params.go`; the
revision embedded here is the one that type-checks against the
`v1alpha1` types present in the tree (the revision with `DSPVersion`,
`EngineDriver` and `ObjectStorageConnection.Secure *bool`).  Where the
older revision differs (the raw pass-through of the external-storage
`Secure` field) a separate, clearly named definition embeds that older
behaviour for comparison.

Modelling conventions:
- Go pointers that encode optional blocks become `Option`;
- `resource.Quantity` values become their literal strings;
- `[]byte` becomes `List Nat` (one `Nat` per byte);
- the kube client is reduced to the one operation the engine performs,
  `Get`, modelled as a function from (namespace, name) to a result that
  is `found`, `notFound` or a transient error — the engine performs no
  write, so the store is a read-only input of every definition;
- `math/rand` is modelled by an explicit stream of draws
  `rnd : Nat → Nat → Nat` (call index → draw index → value), so that
  password generation is a deterministic function of the stream;
- functions that return a Go `error` become `Except String`;
- the local variable `createNewSecret`, which the claims observe, is
  returned alongside the updated parameter record.
-/

namespace DSPO

/-! ### Data model (`api/v1alpha1/dspipeline_types.go`) -/

/-- Go `SecretKeyValue`: a secret name plus the key of the value inside it. -/
structure SecretKeyValue where
  name : String
  key : String
  deriving Repr, DecidableEq

/-- Go `S3CredentialSecret`: a secret name plus the access-key and secret-key
field keys inside it. -/
structure S3CredentialSecret where
  secretName : String
  accessKey : String
  secretKey : String
  deriving Repr, DecidableEq

/-- Go `Resources`: a CPU/memory quantity pair (quantities kept as strings). -/
structure Resources where
  cpu : String
  memory : String
  deriving Repr, DecidableEq

/-- Go `ResourceRequirements`: optional limits and requests. -/
structure ResourceRequirements where
  limits : Option Resources
  requests : Option Resources
  deriving Repr, DecidableEq

/-- Go `ArtifactScriptConfigMap`. -/
structure ArtifactScriptConfigMap where
  name : String
  key : String
  deriving Repr, DecidableEq

/-- Go `APIServer` component block. -/
structure APIServer where
  deploy : Bool
  image : String
  applyTektonCustomResource : Bool
  archiveLogs : Bool
  artifactImage : String
  cacheImage : String
  moveResultsImage : String
  artifactScriptConfigMap : Option ArtifactScriptConfigMap
  injectDefaultScript : Bool
  stripEOF : Bool
  terminateStatus : String
  trackArtifacts : Bool
  dbConfigConMaxLifetimeSec : Int
  collectMetrics : Bool
  enableRoute : Bool
  enableSamplePipeline : Bool
  autoUpdatePipelineDefaultVersion : Bool
  resources : Option ResourceRequirements
  deriving Repr, DecidableEq

/-- Go `PersistenceAgent` component block. -/
structure PersistenceAgent where
  deploy : Bool
  image : String
  numWorkers : Int
  resources : Option ResourceRequirements
  deriving Repr, DecidableEq

/-- Go `ScheduledWorkflow` component block. -/
structure ScheduledWorkflow where
  deploy : Bool
  image : String
  cronScheduleTimezone : String
  resources : Option ResourceRequirements
  deriving Repr, DecidableEq

/-- Go `MlPipelineUI` component block. -/
structure MlPipelineUI where
  deploy : Bool
  configMapName : String
  resources : Option ResourceRequirements
  image : String
  deriving Repr, DecidableEq

/-- Go `MariaDB` managed-database block. -/
structure MariaDB where
  deploy : Bool
  image : String
  username : String
  passwordSecret : Option SecretKeyValue
  dbName : String
  pvcSize : String
  resources : Option ResourceRequirements
  deriving Repr, DecidableEq

/-- Go `ExternalDB` external-database descriptor. -/
structure ExternalDB where
  host : String
  port : String
  username : String
  dbName : String
  passwordSecret : Option SecretKeyValue
  deriving Repr, DecidableEq

/-- Go `Database` block: at most one of managed MariaDB / external DB active. -/
structure Database where
  mariaDB : Option MariaDB
  externalDB : Option ExternalDB
  disableHealthCheck : Bool
  deriving Repr, DecidableEq

/-- Go `Minio` managed object-storage block. -/
structure Minio where
  deploy : Bool
  bucket : String
  s3CredentialSecret : Option S3CredentialSecret
  pvcSize : String
  resources : Option ResourceRequirements
  image : String
  deriving Repr, DecidableEq

/-- Go `ExternalStorage` external object-storage descriptor. -/
structure ExternalStorage where
  host : String
  bucket : String
  scheme : String
  s3CredentialSecret : Option S3CredentialSecret
  secure : Option Bool
  port : String
  deriving Repr, DecidableEq

/-- Go `ObjectStorage` block. -/
structure ObjectStorage where
  minio : Option Minio
  externalStorage : Option ExternalStorage
  disableHealthCheck : Bool
  deriving Repr, DecidableEq

/-- Go `Envoy` MLMD subcomponent. -/
structure Envoy where
  resources : Option ResourceRequirements
  image : String
  deriving Repr, DecidableEq

/-- Go `GRPC` MLMD subcomponent. -/
structure GRPC where
  resources : Option ResourceRequirements
  image : String
  port : String
  deriving Repr, DecidableEq

/-- Go `Writer` MLMD subcomponent. -/
structure Writer where
  resources : Option ResourceRequirements
  image : String
  deriving Repr, DecidableEq

/-- Go `MLMD` metadata-service block. -/
structure MLMD where
  deploy : Bool
  envoy : Option Envoy
  grpc : Option GRPC
  writer : Option Writer
  deriving Repr, DecidableEq

/-- Go `DSPASpec`: the user-authored desired state.  `engineDriver` is the
field the params code reads as `dsp.Spec.EngineDriver`. -/
structure DSPASpec where
  apiServer : Option APIServer
  persistenceAgent : Option PersistenceAgent
  scheduledWorkflow : Option ScheduledWorkflow
  database : Option Database
  mlPipelineUI : Option MlPipelineUI
  objectStorage : Option ObjectStorage
  mlmd : Option MLMD
  dspVersion : String
  engineDriver : String
  deriving Repr, DecidableEq

/-- Go `DataSciencePipelinesApplication`: metadata name/namespace plus spec
(`ns` renders the Go field `Namespace`, a reserved word in Lean). -/
structure DSPA where
  name : String
  ns : String
  spec : DSPASpec
  deriving Repr, DecidableEq

/-! ### The cluster secret store -/

/-- Go `corev1.Secret`, reduced to its `Data` map (`map[string][]byte`).
A missing key yields the empty byte slice, as Go map indexing does. -/
structure Secret where
  data : List (String × List Nat)
  deriving Repr, DecidableEq

/-- Go map indexing `sec.Data[k]`: the zero value `nil` (here `[]`) when
the key is absent. -/
def lookupData (d : List (String × List Nat)) (k : String) : List Nat :=
  match d.find? (fun kv => kv.1 = k) with
  | some kv => kv.2
  | none => []

/-- Outcome of `client.Get`: the secret, a NotFound error, or any other
(transient) error. -/
inductive GetResult where
  | found (s : Secret)
  | notFound
  | transientError
  deriving Repr, DecidableEq

/-- The secret store: `Get` by (namespace, name).  The engine only ever
reads, so the store is a pure input. -/
def Store := String → String → GetResult

/-! ### `encoding/base64` and `[]byte(string)` -/

/-- The standard base64 alphabet. -/
def base64Chars : List Char :=
  "ABCDEFGHIJKLMNOPQRSTUVWXYZabcdefghijklmnopqrstuvwxyz0123456789+/".toList

/-- Character of a 6-bit group. -/
def b64 (n : Nat) : Char := base64Chars.getD n '='

/-- Go `base64.StdEncoding.EncodeToString`: standard base64 with padding. -/
def base64Encode : List Nat → String
  | [] => ""
  | [a] => String.mk [b64 (a / 4 % 64), b64 (a % 4 * 16), '=', '=']
  | [a, b] => String.mk [b64 (a / 4 % 64), b64 (a % 4 * 16 + b / 16), b64 (b % 16 * 4), '=']
  | a :: b :: c :: rest =>
      String.mk [b64 (a / 4 % 64), b64 (a % 4 * 16 + b / 16),
                 b64 (b % 16 * 4 + c / 64), b64 (c % 64)] ++ base64Encode rest

/-- UTF-8 encoding of one character (1–4 bytes). -/
def utf8Bytes (c : Char) : List Nat :=
  let n := c.toNat
  if n < 128 then [n]
  else if n < 2048 then [192 + n / 64, 128 + n % 64]
  else if n < 65536 then [224 + n / 4096, 128 + n / 64 % 64, 128 + n % 64]
  else [240 + n / 262144, 128 + n / 4096 % 64, 128 + n / 64 % 64, 128 + n % 64]

/-- Go `[]byte(s)`: the UTF-8 bytes of a string. -/
def strBytes (s : String) : List Nat :=
  s.data.foldr (fun c acc => utf8Bytes c ++ acc) []

/-! ### `passwordGen` -/

/-- The alphabet `passwordGen` draws from (62 characters). -/
def passwordChars : List Char :=
  "abcdefghijklmnopqrstuvwxyzABCDEFGHIJKLMNOPQRSTUVWXYZ1234567890".toList

/-- Go `passwordGen(n)`: `n` uniform draws from `passwordChars`; the random
source is the explicit draw stream `rnd`. -/
def passwordGen (rnd : Nat → Nat) (n : Nat) : String :=
  String.mk ((List.range n).map (fun i => passwordChars.getD (rnd i % 62) 'a'))

/-! ### `controllers/config/defaults.go` constants -/

def DefaultImageValue : String := "MustSetInConfig"

def MLPipelineUIConfigMapPfx : String := "ds-pipeline-ui-configmap-"
def ArtifactScriptConfigMapNamePfx : String := "ds-pipeline-artifact-script-"
def ArtifactScriptConfigMapKey : String := "artifact_script"
def DSPServicePfx : String := "ds-pipeline"

def DBSecretNamePfx : String := "ds-pipeline-db-"
def DBSecretKey : String := "password"

def MariaDBName : String := "mlpipeline"
def MariaDBHostPfx : String := "mariadb"
def MariaDBHostPort : String := "3306"
def MariaDBUser : String := "mlpipeline"
def MariaDBNamePVCSize : String := "10Gi"

def MinioHostPfx : String := "minio"
def MinioPort : String := "9000"
def MinioScheme : String := "http"
def MinioDefaultBucket : String := "mlpipeline"

def ObjectStorageSecretName : String := "mlpipeline-minio-artifact"
def ObjectStorageAccessKey : String := "accesskey"
def ObjectStorageSecretKey : String := "secretkey"

def MlmdGrpcPort : String := "8080"

def APIServerImagePath : String := "Images.ApiServer"
def APIServerArtifactImagePath : String := "Images.Artifact"
def PersistenceAgentImagePath : String := "Images.PersistentAgent"
def ScheduledWorkflowImagePath : String := "Images.ScheduledWorkflow"
def APIServerCacheImagePath : String := "Images.Cache"
def APIServerMoveResultsImagePath : String := "Images.MoveResultsImage"
def MariaDBImagePath : String := "Images.MariaDB"
def OAuthProxyImagePath : String := "Images.OAuthProxy"
def MlmdEnvoyImagePath : String := "Images.MlmdEnvoy"
def MlmdGRPCImagePath : String := "Images.MlmdGRPC"
def MlmdWriterImagePath : String := "Images.MlmdWriter"

def APIServerImagePathV2Argo : String := "ImagesV2.Argo.ApiServer"
def APIServerArtifactImagePathV2Argo : String := "ImagesV2.Argo.Artifact"
def APIServerCacheImagePathV2Argo : String := "ImagesV2.Argo.Cache"
def APIServerMoveResultsImagePathV2Argo : String := "ImagesV2.Argo.MoveResultsImage"
def PersistenceAgentImagePathV2Argo : String := "ImagesV2.Argo.PersistentAgent"
def ScheduledWorkflowImagePathV2Argo : String := "ImagesV2.Argo.ScheduledWorkflow"
def MlmdEnvoyImagePathV2Argo : String := "ImagesV2.Argo.MlmdEnvoy"
def MlmdGRPCImagePathV2Argo : String := "ImagesV2.Argo.MlmdGRPC"
def MlmdWriterImagePathV2Argo : String := "ImagesV2.Argo.MlmdWriter"

def APIServerImagePathV2Tekton : String := "ImagesV2.Tekton.ApiServer"
def APIServerArtifactImagePathV2Tekton : String := "ImagesV2.Tekton.Artifact"
def APIServerCacheImagePathV2Tekton : String := "ImagesV2.Tekton.Cache"
def APIServerMoveResultsImagePathV2Tekton : String := "ImagesV2.Tekton.MoveResultsImage"
def PersistenceAgentImagePathV2Tekton : String := "ImagesV2.Tekton.PersistentAgent"
def ScheduledWorkflowImagePathV2Tekton : String := "ImagesV2.Tekton.ScheduledWorkflow"
def MlmdEnvoyImagePathV2Tekton : String := "ImagesV2.Tekton.MlmdEnvoy"
def MlmdGRPCImagePathV2Tekton : String := "ImagesV2.Tekton.MlmdGRPC"
def MlmdWriterImagePathV2Tekton : String := "ImagesV2.Tekton.MlmdWriter"

/-- Go `createResourceRequirement` applied as in `defaults.go`. -/
def createResourceRequirement (reqCPU reqMem limCPU limMem : String) : ResourceRequirements :=
  { requests := some { cpu := reqCPU, memory := reqMem }
    limits := some { cpu := limCPU, memory := limMem } }

def APIServerResourceRequirements : ResourceRequirements :=
  createResourceRequirement "250m" "500Mi" "500m" "1Gi"
def PersistenceAgentResourceRequirements : ResourceRequirements :=
  createResourceRequirement "120m" "500Mi" "250m" "1Gi"
def ScheduledWorkflowResourceRequirements : ResourceRequirements :=
  createResourceRequirement "120m" "100Mi" "250m" "250Mi"
def MariaDBResourceRequirements : ResourceRequirements :=
  createResourceRequirement "300m" "800Mi" "1" "1Gi"
def MinioResourceRequirements : ResourceRequirements :=
  createResourceRequirement "200m" "100Mi" "250m" "1Gi"
def MlPipelineUIResourceRequirements : ResourceRequirements :=
  createResourceRequirement "100m" "256Mi" "100m" "256Mi"
def MlmdEnvoyResourceRequirements : ResourceRequirements :=
  createResourceRequirement "100m" "256Mi" "100m" "256Mi"
def MlmdGRPCResourceRequirements : ResourceRequirements :=
  createResourceRequirement "100m" "256Mi" "100m" "256Mi"
def MlmdWriterResourceRequirements : ResourceRequirements :=
  createResourceRequirement "100m" "256Mi" "100m" "256Mi"

/-- The viper-backed layered configuration: a key is either set to a
string value or unset. -/
def Config := String → Option String

/-- Go `GetStringConfigWithDefault`: the configured value when the key is
set, else the supplied default. -/
def GetStringConfigWithDefault (cfg : Config) (configName value : String) : String :=
  match cfg configName with
  | none => value
  | some v => v

/-! ### `controllers/dspipeline_params.go`: the parameter record -/

/-- Go `DBConnection`. -/
structure DBConnection where
  host : String
  port : String
  username : String
  dbName : String
  credentialsSecret : Option SecretKeyValue
  password : String
  deriving Repr, DecidableEq

/-- Go `ObjectStorageConnection` (the revision with `Secure *bool`). -/
structure ObjectStorageConnection where
  bucket : String
  credentialsSecret : Option S3CredentialSecret
  host : String
  port : String
  scheme : String
  secure : Option Bool
  endpoint : String
  accessKeyID : String
  secretAccessKey : String
  deriving Repr, DecidableEq

/-- Go `DSPAParams` (`ns` renders the Go field `Namespace`).  The fields the
resolution code never reads or writes (`Owner`, `CRDViewer`,
`VisualizationServer`, `WorkflowController`) are omitted. -/
structure DSPAParams where
  name : String
  ns : String
  dspVersion : String
  apiServer : Option APIServer
  apiServerServiceName : String
  oauthProxy : String
  scheduledWorkflow : Option ScheduledWorkflow
  persistenceAgent : Option PersistenceAgent
  mlPipelineUI : Option MlPipelineUI
  mariaDB : Option MariaDB
  minio : Option Minio
  mlmd : Option MLMD
  dbConnection : DBConnection
  objectStorageConnection : ObjectStorageConnection
  deriving Repr, DecidableEq

/-- Go `UsingV2Pipelines`. -/
def UsingV2Pipelines (dsp : DSPA) : Bool := dsp.spec.dspVersion = "v2"

/-- Go `UsingArgoEngineDriver`. -/
def UsingArgoEngineDriver (dsp : DSPA) : Bool := dsp.spec.engineDriver = "argo"

/-- Go `UsingTektonEngineDriver`.  Faithful to the source, which compares
`dsp.Spec.DSPVersion` — not `dsp.Spec.EngineDriver` — against
`"tekton"`. -/
def UsingTektonEngineDriver (dsp : DSPA) : Bool := dsp.spec.dspVersion = "tekton"

/-- Go `UsingExternalDB`. -/
def UsingExternalDB (dsp : DSPA) : Bool :=
  match dsp.spec.database with
  | some db => db.externalDB.isSome
  | none => false

/-- Go `UsingExternalStorage`. -/
def UsingExternalStorage (dsp : DSPA) : Bool :=
  match dsp.spec.objectStorage with
  | some os => os.externalStorage.isSome
  | none => false

/-- The external-database descriptor of the spec, when present. -/
def externalDBOf (dsp : DSPA) : Option ExternalDB :=
  dsp.spec.database.bind Database.externalDB

/-- The external object-storage descriptor of the spec, when present. -/
def externalStorageOf (dsp : DSPA) : Option ExternalStorage :=
  dsp.spec.objectStorage.bind ObjectStorage.externalStorage

/-- Go `setStringDefault`: keep a non-empty value, else substitute the
default. -/
def setStringDefault (defaultValue value : String) : String :=
  if value = "" then defaultValue else value

/-- Go `setResourcesDefault`: substitute the whole default object when the
override is absent. -/
def setResourcesDefault (defaultValue : ResourceRequirements)
    (value : Option ResourceRequirements) : Option ResourceRequirements :=
  match value with
  | none => some defaultValue
  | some v => some v

/-! ### `SetupDBParams` -/

/-- Go `SetupDBParams`, connection-population phase (everything before the
secret fetch): populate `DBConnection` from the external descriptor, or
synthesize/default the managed MariaDB block and build the in-cluster
DNS host.  Also records the operator-owned credential identity
`DBSecretNamePfx + p.Name`. -/
def dbPrepare (cfg : Config) (dsp : DSPA) (p : DSPAParams) : DSPAParams :=
  let p1 := { p with dbConnection := { p.dbConnection with
    credentialsSecret := some { name := DBSecretNamePfx ++ p.name, key := DBSecretKey } } }
  match externalDBOf dsp with
  | some ext =>
      { p1 with dbConnection := { p1.dbConnection with
          host := ext.host, port := ext.port,
          username := ext.username, dbName := ext.dbName } }
  | none =>
      let m0 : MariaDB :=
        match p1.mariaDB with
        | none =>
            { deploy := true
              image := GetStringConfigWithDefault cfg MariaDBImagePath DefaultImageValue
              username := MariaDBUser
              passwordSecret := none
              dbName := MariaDBName
              pvcSize := MariaDBNamePVCSize
              resources := some MariaDBResourceRequirements }
        | some m => m
      let m1 := { m0 with
        image := if m0.image = ""
          then GetStringConfigWithDefault cfg MariaDBImagePath DefaultImageValue
          else m0.image
        username := setStringDefault MariaDBUser m0.username
        dbName := setStringDefault MariaDBName m0.dbName
        resources := setResourcesDefault MariaDBResourceRequirements m0.resources }
      { p1 with
        mariaDB := some m1
        dbConnection := { p1.dbConnection with
          host := MariaDBHostPfx ++ "-" ++ p1.name ++ "." ++ p1.ns ++ ".svc.cluster.local"
          port := MariaDBHostPort
          username := m1.username
          dbName := m1.dbName } }

/-- The custom (user-owned) DB credential reference the code selects:
the external descriptor's `PasswordSecret` on the external branch, the
MariaDB block's `PasswordSecret` on the managed branch (defaulting never
touches that field, and a synthesized MariaDB block has none). -/
def dbCustomCreds (dsp : DSPA) (p : DSPAParams) : Option SecretKeyValue :=
  match externalDBOf dsp with
  | some ext => ext.passwordSecret
  | none =>
      match p.mariaDB with
      | some m => m.passwordSecret
      | none => none

/-- The secret name `SetupDBParams` hands to `client.Get`. -/
def dbLookupName (dsp : DSPA) (p : DSPAParams) : String :=
  match dbCustomCreds dsp p with
  | some c => c.name
  | none => DBSecretNamePfx ++ p.name

/-- The data key `SetupDBParams` reads the password from. -/
def dbLookupKey (dsp : DSPA) (p : DSPAParams) : String :=
  match dbCustomCreds dsp p with
  | some c => c.key
  | none => DBSecretKey

/-- Replace only the password of the DB connection. -/
def withDBPassword (p : DSPAParams) (pw : String) : DSPAParams :=
  { p with dbConnection := { p.dbConnection with password := pw } }

/-- The error raised when a user-specified DB secret is absent. -/
def dbSecretMissingMsg (credsSecretName : String) : String :=
  "DB secret [" ++ credsSecretName ++ "] was specified in CR but does not exist."

/-- The error raised when the fetched DB password field is empty. -/
def dbSecretEmptyMsg (credsSecretName credsPasswordKey : String) : String :=
  "DB Password from secret [" ++ credsSecretName ++ "] for key ["
    ++ credsPasswordKey ++ "] was not successfully retrieved, "
    ++ "ensure that the secret with this key exist."

/-- The error raised when the DB secret fetch fails transiently. -/
def dbSecretFetchMsg : String := "Unable to fetch DB secret..."

/-- Go `SetupDBParams`: populate the connection, fetch the credential
secret, and either (not found, operator-owned) generate a
base64-encoded 12-character password and report a new secret for
creation, (not found, user-owned) fail, or (found) adopt the stored
value, failing when it is empty.  Returns the updated parameters and
the `createNewSecret` flag. -/
def SetupDBParams (rnd : Nat → Nat → Nat) (cfg : Config) (dsp : DSPA) (store : Store)
    (p : DSPAParams) : Except String (DSPAParams × Bool) :=
  let p2 := dbPrepare cfg dsp p
  let customCreds := dbCustomCreds dsp p
  let credsSecretName := dbLookupName dsp p
  let credsPasswordKey := dbLookupKey dsp p
  match store p2.ns credsSecretName with
  | .notFound =>
      match customCreds with
      | none =>
          let generatedPass := passwordGen (rnd 0) 12
          .ok (withDBPassword p2 (base64Encode (strBytes generatedPass)), true)
      | some _ => .error (dbSecretMissingMsg credsSecretName)
  | .transientError => .error dbSecretFetchMsg
  | .found dbSecret =>
      let pw := base64Encode (lookupData dbSecret.data credsPasswordKey)
      if pw = "" then .error (dbSecretEmptyMsg credsSecretName credsPasswordKey)
      else .ok (withDBPassword p2 pw, false)

/-! ### `SetupObjectParams` -/

/-- The error raised when neither minio nor external storage is given. -/
def objNeitherSpecifiedMsg : String :=
  "either [spec.objectStorage.minio] or [spec.objectStorage.externalStorage] "
    ++ "need to be specified in DSPA spec"

/-- The error raised when the managed Minio block carries no image. -/
def minioNoImageMsg : String := "minio specified, but no image provided in the DSPA CR Spec"

/-- Go `SetupObjectParams`, connection-population phase: adopt the external
descriptor (inferring the `Secure` flag from the scheme when it is
unspecified), or require a managed Minio block with a non-empty image
and build the in-cluster connection; then compose the endpoint
`scheme://host[:port]`.  Also records the operator-owned credential
identity (`ObjectStorageSecretName`, a fixed constant).  Errors are the
two managed-block configuration failures, raised before any store
access. -/
def objPrepare (dsp : DSPA) (p : DSPAParams) : Except String DSPAParams :=
  let p1 := { p with objectStorageConnection := { p.objectStorageConnection with
    credentialsSecret := some { secretName := ObjectStorageSecretName,
                                accessKey := ObjectStorageAccessKey,
                                secretKey := ObjectStorageSecretKey } } }
  let branch : Except String DSPAParams :=
    match externalStorageOf dsp with
    | some ext =>
        let secure : Bool :=
          match ext.secure with
          | none => if ext.scheme = "https" then true else false
          | some b => b
        .ok { p1 with objectStorageConnection := { p1.objectStorageConnection with
                bucket := ext.bucket, host := ext.host, scheme := ext.scheme,
                secure := some secure, port := ext.port } }
    | none =>
        match p1.minio with
        | none => .error objNeitherSpecifiedMsg
        | some m =>
            if m.image = "" then .error minioNoImageMsg
            else
              -- The source re-reads the image from `dsp.Spec.ObjectStorage.Minio.Image`;
              -- `p.Minio` is a deep copy of that block, so when the spec block is
              -- present the two coincide (when it is absent the Go code would
              -- dereference nil — unreachable via `ExtractParams`).
              let specImage :=
                match dsp.spec.objectStorage.bind ObjectStorage.minio with
                | some sm => sm.image
                | none => m.image
              let m1 := { m with
                image := specImage
                bucket := setStringDefault MinioDefaultBucket m.bucket
                resources := setResourcesDefault MinioResourceRequirements m.resources }
              .ok { p1 with
                minio := some m1
                objectStorageConnection := { p1.objectStorageConnection with
                  bucket := MinioDefaultBucket
                  host := MinioHostPfx ++ "-" ++ p1.name ++ "." ++ p1.ns ++ ".svc.cluster.local"
                  port := MinioPort
                  scheme := MinioScheme
                  secure := some false } }
  match branch with
  | .error e => .error e
  | .ok p2 =>
      let endpoint0 := p2.objectStorageConnection.scheme ++ "://" ++ p2.objectStorageConnection.host
      let endpoint :=
        if p2.objectStorageConnection.port = "" then endpoint0
        else endpoint0 ++ ":" ++ p2.objectStorageConnection.port
      .ok { p2 with objectStorageConnection := { p2.objectStorageConnection with
              endpoint := endpoint } }

/-- The custom (user-owned) object-storage credential reference the code
selects: the external descriptor's `S3CredentialSecret` on the external
branch, the Minio block's on the managed branch. -/
def objCustomCreds (dsp : DSPA) (p : DSPAParams) : Option S3CredentialSecret :=
  match externalStorageOf dsp with
  | some ext => ext.s3CredentialSecret
  | none =>
      match p.minio with
      | some m => m.s3CredentialSecret
      | none => none

/-- The secret name `SetupObjectParams` hands to `client.Get`. -/
def objLookupName (dsp : DSPA) (p : DSPAParams) : String :=
  match objCustomCreds dsp p with
  | some c => c.secretName
  | none => ObjectStorageSecretName

/-- The data key the access-key ID is read from. -/
def objLookupAccessKey (dsp : DSPA) (p : DSPAParams) : String :=
  match objCustomCreds dsp p with
  | some c => c.accessKey
  | none => ObjectStorageAccessKey

/-- The data key the secret access key is read from. -/
def objLookupSecretKey (dsp : DSPA) (p : DSPAParams) : String :=
  match objCustomCreds dsp p with
  | some c => c.secretKey
  | none => ObjectStorageSecretKey

/-- Replace only the access-key pair of the object-storage connection. -/
def withObjKeys (p : DSPAParams) (ak sk : String) : DSPAParams :=
  { p with objectStorageConnection := { p.objectStorageConnection with
      accessKeyID := ak, secretAccessKey := sk } }

/-- The error raised when a user-specified storage secret is absent. -/
def objSecretMissingMsg (credsSecretName : String) : String :=
  "Storage secret [" ++ credsSecretName ++ "] was specified in CR but does not exist."

/-- The error raised when a fetched storage credential field is empty. -/
def objSecretEmptyMsg (credsSecretName credsAccessKey credsSecretKey : String) : String :=
  "Object Storage Password from secret [" ++ credsSecretName
    ++ "] for keys [" ++ credsAccessKey ++ ", " ++ credsSecretKey
    ++ "] was not successfully retrieved, ensure that the secret with this key exist."

/-- The error raised when the storage secret fetch fails transiently. -/
def objSecretFetchMsg : String := "Unable to fetch Storage secret..."

/-- Go `SetupObjectParams`: populate the connection, fetch the credential
secret, and either (not found, operator-owned) generate base64-encoded
16- and 24-character keys and report a new secret for creation, (not
found, user-owned) fail, or (found) adopt the stored values, failing
when either is empty.  Returns the updated parameters and the
`createNewSecret` flag. -/
def SetupObjectParams (rnd : Nat → Nat → Nat) (dsp : DSPA) (store : Store)
    (p : DSPAParams) : Except String (DSPAParams × Bool) :=
  match objPrepare dsp p with
  | .error e => .error e
  | .ok p2 =>
      let customCreds := objCustomCreds dsp p
      let credsSecretName := objLookupName dsp p
      let credsAccessKey := objLookupAccessKey dsp p
      let credsSecretKey := objLookupSecretKey dsp p
      match store p2.ns credsSecretName with
      | .notFound =>
          match customCreds with
          | none =>
              let accessPass := passwordGen (rnd 0) 16
              let secretPass := passwordGen (rnd 1) 24
              .ok (withObjKeys p2 (base64Encode (strBytes accessPass))
                     (base64Encode (strBytes secretPass)), true)
          | some _ => .error (objSecretMissingMsg credsSecretName)
      | .transientError => .error objSecretFetchMsg
      | .found storageSecret =>
          let ak := base64Encode (lookupData storageSecret.data credsAccessKey)
          let sk := base64Encode (lookupData storageSecret.data credsSecretKey)
          if ak = "" ∨ sk = "" then
            .error (objSecretEmptyMsg credsSecretName credsAccessKey credsSecretKey)
          else .ok (withObjKeys p2 ak sk, false)

/-! ### `SetupMLMD` -/

/-- Go `SetupMLMD`: when the metadata block is present, select the image
paths by version and engine driver (v2 with a driver that is neither
recognized as Argo nor as Tekton is a fatal error), then default the
three subcomponents' images, resources and the gRPC port. -/
def illegalEngineDriverMsg (engineDriver : String) : String :=
  "Illegal Engine Driver (" ++ engineDriver ++ ") specified, cannot continue."

def SetupMLMD (cfg : Config) (dsp : DSPA) (p : DSPAParams) : Except String DSPAParams :=
  match p.mlmd with
  | none => .ok p
  | some mlmd =>
      let paths : Except String (String × String × String) :=
        if UsingV2Pipelines dsp then
          if UsingArgoEngineDriver dsp then
            .ok (MlmdEnvoyImagePathV2Argo, MlmdGRPCImagePathV2Argo, MlmdWriterImagePathV2Argo)
          else if UsingTektonEngineDriver dsp then
            .ok (MlmdEnvoyImagePathV2Tekton, MlmdGRPCImagePathV2Tekton, MlmdWriterImagePathV2Tekton)
          else
            .error (illegalEngineDriverMsg dsp.spec.engineDriver)
        else
          .ok (MlmdEnvoyImagePath, MlmdGRPCImagePath, MlmdWriterImagePath)
      match paths with
      | .error e => .error e
      | .ok (envoyPath, grpcPath, writerPath) =>
          let envoy0 : Envoy :=
            match mlmd.envoy with
            | none => { image := GetStringConfigWithDefault cfg envoyPath DefaultImageValue
                        resources := none }
            | some e => e
          let grpc0 : GRPC :=
            match mlmd.grpc with
            | none => { image := GetStringConfigWithDefault cfg grpcPath DefaultImageValue
                        resources := none, port := "" }
            | some g => g
          let writer0 : Writer :=
            match mlmd.writer with
            | none => { image := GetStringConfigWithDefault cfg writerPath DefaultImageValue
                        resources := none }
            | some w => w
          let envoy1 := { envoy0 with
            image := setStringDefault (GetStringConfigWithDefault cfg envoyPath DefaultImageValue) envoy0.image
            resources := setResourcesDefault MlmdEnvoyResourceRequirements envoy0.resources }
          let grpc1 := { grpc0 with
            image := setStringDefault (GetStringConfigWithDefault cfg grpcPath DefaultImageValue) grpc0.image
            resources := setResourcesDefault MlmdGRPCResourceRequirements grpc0.resources
            port := setStringDefault MlmdGrpcPort grpc0.port }
          let writer1 := { writer0 with
            image := setStringDefault (GetStringConfigWithDefault cfg writerPath DefaultImageValue) writer0.image
            resources := setResourcesDefault MlmdWriterResourceRequirements writer0.resources }
          .ok { p with mlmd := some { mlmd with
                  envoy := some envoy1, grpc := some grpc1, writer := some writer1 } }

/-! ### `ExtractParams` -/

/-- The first block of `ExtractParams`: copy the spec blocks into the
parameter record (`DeepCopy` of an optional block is the block itself in
a value model) and derive the service name and proxy image. -/
def initParams (cfg : Config) (dsp : DSPA) : DSPAParams :=
  { name := dsp.name
    ns := dsp.ns
    dspVersion := dsp.spec.dspVersion
    apiServer := dsp.spec.apiServer
    apiServerServiceName := DSPServicePfx ++ "-" ++ dsp.name
    oauthProxy := GetStringConfigWithDefault cfg OAuthProxyImagePath DefaultImageValue
    scheduledWorkflow := dsp.spec.scheduledWorkflow
    persistenceAgent := dsp.spec.persistenceAgent
    mlPipelineUI := dsp.spec.mlPipelineUI
    mariaDB := dsp.spec.database.bind Database.mariaDB
    minio := dsp.spec.objectStorage.bind ObjectStorage.minio
    mlmd := dsp.spec.mlmd
    dbConnection := { host := "", port := "", username := "", dbName := ""
                      credentialsSecret := none, password := "" }
    objectStorageConnection := { bucket := "", credentialsSecret := none, host := ""
                                 port := "", scheme := "", secure := none, endpoint := ""
                                 accessKeyID := "", secretAccessKey := "" } }

/-- The API-server image paths `ExtractParams` selects: v2 switches to
the Argo or Tekton family when the corresponding predicate holds, and
otherwise — the driver check at this level being commented out in the
source — silently keeps the legacy paths. -/
def apiServerImagePaths (dsp : DSPA) : String × String × String × String :=
  if UsingV2Pipelines dsp then
    if UsingArgoEngineDriver dsp then
      (APIServerImagePathV2Argo, APIServerArtifactImagePathV2Argo,
       APIServerCacheImagePathV2Argo, APIServerMoveResultsImagePathV2Argo)
    else if UsingTektonEngineDriver dsp then
      (APIServerImagePathV2Tekton, APIServerArtifactImagePathV2Tekton,
       APIServerCacheImagePathV2Tekton, APIServerMoveResultsImagePathV2Tekton)
    else
      (APIServerImagePath, APIServerArtifactImagePath,
       APIServerCacheImagePath, APIServerMoveResultsImagePath)
  else
    (APIServerImagePath, APIServerArtifactImagePath,
     APIServerCacheImagePath, APIServerMoveResultsImagePath)

/-- The persistence-agent image path selected by `ExtractParams`. -/
def persistenceAgentImagePath (dsp : DSPA) : String :=
  if UsingV2Pipelines dsp then
    if UsingArgoEngineDriver dsp then PersistenceAgentImagePathV2Argo
    else if UsingTektonEngineDriver dsp then PersistenceAgentImagePathV2Tekton
    else PersistenceAgentImagePath
  else PersistenceAgentImagePath

/-- The scheduled-workflow image path selected by `ExtractParams`. -/
def scheduledWorkflowImagePath (dsp : DSPA) : String :=
  if UsingV2Pipelines dsp then
    if UsingArgoEngineDriver dsp then ScheduledWorkflowImagePathV2Argo
    else if UsingTektonEngineDriver dsp then ScheduledWorkflowImagePathV2Tekton
    else ScheduledWorkflowImagePath
  else ScheduledWorkflowImagePath

/-- The API-server defaulting block of `ExtractParams`. -/
def resolveAPIServer (cfg : Config) (dsp : DSPA) (a : APIServer) : APIServer :=
  let (serverPath, artifactPath, cachePath, moveResultsPath) := apiServerImagePaths dsp
  { a with
    image := setStringDefault (GetStringConfigWithDefault cfg serverPath DefaultImageValue) a.image
    artifactImage := setStringDefault (GetStringConfigWithDefault cfg artifactPath DefaultImageValue) a.artifactImage
    cacheImage := setStringDefault (GetStringConfigWithDefault cfg cachePath DefaultImageValue) a.cacheImage
    moveResultsImage := setStringDefault (GetStringConfigWithDefault cfg moveResultsPath DefaultImageValue) a.moveResultsImage
    resources := setResourcesDefault APIServerResourceRequirements a.resources
    artifactScriptConfigMap :=
      match a.artifactScriptConfigMap with
      | none => some { name := ArtifactScriptConfigMapNamePfx ++ dsp.name
                       key := ArtifactScriptConfigMapKey }
      | some cm => some cm }

/-- The persistence-agent defaulting block of `ExtractParams`. -/
def resolvePersistenceAgent (cfg : Config) (dsp : DSPA) (pa : PersistenceAgent) : PersistenceAgent :=
  { pa with
    image := setStringDefault
      (GetStringConfigWithDefault cfg (persistenceAgentImagePath dsp) DefaultImageValue) pa.image
    resources := setResourcesDefault PersistenceAgentResourceRequirements pa.resources }

/-- The scheduled-workflow defaulting block of `ExtractParams`. -/
def resolveScheduledWorkflow (cfg : Config) (dsp : DSPA) (sw : ScheduledWorkflow) : ScheduledWorkflow :=
  { sw with
    image := setStringDefault
      (GetStringConfigWithDefault cfg (scheduledWorkflowImagePath dsp) DefaultImageValue) sw.image
    resources := setResourcesDefault ScheduledWorkflowResourceRequirements sw.resources }

/-- The error raised when the UI block carries no image. -/
def uiNoImageMsg : String := "mlPipelineUI specified, but no image provided in the DSPA CR Spec"

/-- The UI block of `ExtractParams`: a UI block without an image is a
fatal configuration error; otherwise default the config-map name and
resources. -/
def resolveMlPipelineUI (dsp : DSPA) (ui : MlPipelineUI) : Except String MlPipelineUI :=
  if ui.image = "" then .error uiNoImageMsg
  else
    .ok { ui with
      configMapName := setStringDefault (MLPipelineUIConfigMapPfx ++ dsp.name) ui.configMapName
      resources := setResourcesDefault MlPipelineUIResourceRequirements ui.resources }

/-- Go `ExtractParams`: copy the spec, default each present component
block (failing on a UI block without an image), then run `SetupMLMD`,
`SetupDBParams` and `SetupObjectParams` in that order.  Returns the
resolved parameters together with the two `createNewSecret` flags
(database first, object storage second). -/
def ExtractParams (rndDB rndObj : Nat → Nat → Nat) (cfg : Config) (store : Store)
    (dsp : DSPA) : Except String (DSPAParams × Bool × Bool) :=
  let p0 := initParams cfg dsp
  let p1 :=
    match p0.apiServer with
    | none => p0
    | some a => { p0 with apiServer := some (resolveAPIServer cfg dsp a) }
  let p2 :=
    match p1.persistenceAgent with
    | none => p1
    | some pa => { p1 with persistenceAgent := some (resolvePersistenceAgent cfg dsp pa) }
  let p3 :=
    match p2.scheduledWorkflow with
    | none => p2
    | some sw => { p2 with scheduledWorkflow := some (resolveScheduledWorkflow cfg dsp sw) }
  let p4E : Except String DSPAParams :=
    match p3.mlPipelineUI with
    | none => .ok p3
    | some ui =>
        match resolveMlPipelineUI dsp ui with
        | .error e => .error e
        | .ok ui1 => .ok { p3 with mlPipelineUI := some ui1 }
  match p4E with
  | .error e => .error e
  | .ok p4 =>
      match SetupMLMD cfg dsp p4 with
      | .error e => .error e
      | .ok p5 =>
          match SetupDBParams rndDB cfg dsp store p5 with
          | .error e => .error e
          | .ok (p6, dbNewSecret) =>
              match SetupObjectParams rndObj dsp store p6 with
              | .error e => .error e
              | .ok (p7, objNewSecret) => .ok (p7, dbNewSecret, objNewSecret)

/-! ### Basic lemmas about the embedding -/

/-- A MariaDB block carrying only `deploy: true` (all other fields at
their Go zero values). -/
def mariaDBDeployOnly : MariaDB :=
  { deploy := true, image := "", username := ""
    passwordSecret := none, dbName := "", pvcSize := "", resources := none }

/-- A Minio block carrying only `deploy: true`. -/
def minioDeployOnly : Minio :=
  { deploy := true, bucket := "", s3CredentialSecret := none
    pvcSize := "", resources := none, image := "" }

/-- A Minio block carrying `deploy: true` and an image. -/
def minioWithImage : Minio := { minioDeployOnly with image := "minio:sample" }

/-- An API-server block carrying only `deploy: true`. -/
def apiServerDeployOnly : APIServer :=
  { deploy := true, image := "", applyTektonCustomResource := false
    archiveLogs := false, artifactImage := "", cacheImage := "", moveResultsImage := ""
    artifactScriptConfigMap := none, injectDefaultScript := false, stripEOF := false
    terminateStatus := "", trackArtifacts := false, dbConfigConMaxLifetimeSec := 0
    collectMetrics := false, enableRoute := false, enableSamplePipeline := false
    autoUpdatePipelineDefaultVersion := false, resources := none }

/-- A persistence-agent block carrying only `deploy: true`. -/
def persistenceAgentDeployOnly : PersistenceAgent :=
  { deploy := true, image := "", numWorkers := 0, resources := none }

/-- A scheduled-workflow block carrying only `deploy: true`. -/
def scheduledWorkflowDeployOnly : ScheduledWorkflow :=
  { deploy := true, image := "", cronScheduleTimezone := "", resources := none }

/-- A UI block carrying only `deploy: true`. -/
def uiDeployOnly : MlPipelineUI :=
  { deploy := true, configMapName := "", resources := none, image := "" }

/-- An MLMD block carrying only `deploy: true`. -/
def mlmdDeployOnly : MLMD := { deploy := true, envoy := none, grpc := none, writer := none }

/-- A desired state using the managed database and managed object
storage, no custom credential secrets. -/
def managedDspa : DSPA :=
  { name := "sample", ns := "dspa"
    spec := {
      apiServer := some apiServerDeployOnly
      persistenceAgent := none, scheduledWorkflow := none
      database := some { mariaDB := some mariaDBDeployOnly, externalDB := none
                         disableHealthCheck := false }
      mlPipelineUI := none
      objectStorage := some { minio := some minioWithImage, externalStorage := none
                              disableHealthCheck := false }
      mlmd := none, dspVersion := "v1", engineDriver := "" } }

/-- An unset configuration registry. -/
def cfgNone : Config := fun _ => none

/-- A store with no secrets at all. -/
def storeEmpty : Store := fun _ _ => .notFound

/-- A deterministic draw stream. -/
def rndZero : Nat → Nat → Nat := fun _ i => i

/-- The parameter record `ExtractParams` builds for `managedDspa`
before credential resolution. -/
def managedParams : DSPAParams := initParams cfgNone managedDspa

/-- The stored DB credential secret used by witnesses. -/
def dbSecretSample : Secret := Secret.mk [("password", [112, 119])]

/-- The stored object-storage credential secret used by witnesses. -/
def objSecretSample : Secret := Secret.mk [("accesskey", [97]), ("secretkey", [98])]

/-- A store holding both operator-owned credential secrets for
`managedDspa`. -/
def storeFound : Store := fun n s =>
  if n = "dspa" ∧ s = "ds-pipeline-db-sample" then .found dbSecretSample
  else if n = "dspa" ∧ s = "mlpipeline-minio-artifact" then .found objSecretSample
  else .notFound

/-- A store persisting exactly the material a first pass over
`storeEmpty` generates for `managedDspa` under the `rndZero` stream. -/
def storePersisted : Store := fun n s =>
  if n = "dspa" ∧ s = "ds-pipeline-db-sample" then
    .found (Secret.mk [("password", strBytes (passwordGen (rndZero 0) 12))])
  else if n = "dspa" ∧ s = "mlpipeline-minio-artifact" then
    .found (Secret.mk [("accesskey", strBytes (passwordGen (rndZero 0) 16)),
                       ("secretkey", strBytes (passwordGen (rndZero 1) 24))])
  else .notFound

/-- The parameter record after the object-storage connection phase on
the sample managed deployment. -/
def managedObjPrepared : DSPAParams :=
  (objPrepare managedDspa managedParams).toOption.getD managedParams

/-- External-database sample descriptor. -/
def extDBSample : ExternalDB :=
  { host := "db.example.com", port := "5432", username := "svc"
    dbName := "pipelines", passwordSecret := some { name := "my-db-secret", key := "pw" } }

/-- External-storage sample descriptor. -/
def extStorageSample : ExternalStorage :=
  { host := "s3.example.com", bucket := "mybucket", scheme := "https"
    s3CredentialSecret := some { secretName := "my-s3-secret", accessKey := "ak", secretKey := "sk" }
    secure := none, port := "" }

/-- A desired state using the external database and external object
storage, both with custom credential secrets. -/
def externalDspa : DSPA :=
  { name := "sample", ns := "dspa"
    spec := {
      apiServer := none, persistenceAgent := none, scheduledWorkflow := none
      database := some { mariaDB := some mariaDBDeployOnly, externalDB := some extDBSample
                         disableHealthCheck := false }
      mlPipelineUI := none
      objectStorage := some { minio := some minioWithImage
                              externalStorage := some extStorageSample
                              disableHealthCheck := false }
      mlmd := none, dspVersion := "v1", engineDriver := "" } }

/-- The parameter record `ExtractParams` builds for `externalDspa`
before credential resolution. -/
def externalParams : DSPAParams := initParams cfgNone externalDspa

/-- The parameter record after the object-storage connection phase on
the sample external deployment. -/
def externalObjPrepared : DSPAParams :=
  (objPrepare externalDspa externalParams).toOption.getD externalParams

/-- A store that differs from `storeEmpty` only away from the
operator-owned credential identities. -/
def storeNoise : Store := fun _ s =>
  if s = "unrelated" then .found dbSecretSample else .notFound

/-- A v2 desired state with an unrecognized engine driver and no MLMD
block. -/
def bogusDriverDspa : DSPA :=
  { managedDspa with spec := { managedDspa.spec with
      dspVersion := "v2", engineDriver := "rocket" } }

/-- A v2 desired state selecting the Tekton engine driver, MLMD block
present. -/
def tektonDriverDspa : DSPA :=
  { managedDspa with spec := { managedDspa.spec with
      dspVersion := "v2", engineDriver := "tekton", mlmd := some mlmdDeployOnly } }

/-- A desired state with no database block at all. -/
def noDbDspa : DSPA :=
  { managedDspa with spec := { managedDspa.spec with database := none } }

/-- The parameter record `ExtractParams` builds for `noDbDspa` before
credential resolution. -/
def noDbParams : DSPAParams := initParams cfgNone noDbDspa

/-- Every field of the API-server block the resolver is responsible for
filling is non-empty. -/
def apiServerFilled (a : APIServer) : Bool :=
  a.image != "" && a.artifactImage != "" && a.cacheImage != "" && a.moveResultsImage != ""
  && a.resources.isSome
  && (match a.artifactScriptConfigMap with
      | some cm => cm.name != "" && cm.key != ""
      | none => false)

/-- Resolver-filled persistence-agent fields are non-empty. -/
def paFilled (pa : PersistenceAgent) : Bool := pa.image != "" && pa.resources.isSome

/-- Resolver-filled scheduled-workflow fields are non-empty. -/
def swFilled (sw : ScheduledWorkflow) : Bool := sw.image != "" && sw.resources.isSome

/-- Resolver-filled MariaDB fields are non-empty. -/
def mariaDBFilled (m : MariaDB) : Bool :=
  m.image != "" && m.username != "" && m.dbName != "" && m.resources.isSome

/-- Resolver-filled MLMD subcomponent fields are non-empty. -/
def mlmdFilled (x : MLMD) : Bool :=
  (match x.envoy with | some e => e.image != "" && e.resources.isSome | none => false)
  && (match x.grpc with
      | some g => g.image != "" && g.resources.isSome && g.port != ""
      | none => false)
  && (match x.writer with | some w => w.image != "" && w.resources.isSome | none => false)

/-- Resolver-filled fields of all five defaultable blocks are
non-empty. -/
def resolvedFilled (p : DSPAParams) : Bool :=
  (match p.apiServer with | some a => apiServerFilled a | none => false)
  && (match p.persistenceAgent with | some pa => paFilled pa | none => false)
  && (match p.scheduledWorkflow with | some sw => swFilled sw | none => false)
  && (match p.mariaDB with | some m => mariaDBFilled m | none => false)
  && (match p.mlmd with | some x => mlmdFilled x | none => false)

/-- A desired state whose defaultable blocks all carry only
`deploy: true` and whose object storage is external (required for the
run to get past the Minio image check). -/
def deployOnlyDspa (nm nsp drv : String) (ext : ExternalStorage) : DSPA :=
  { name := nm, ns := nsp
    spec := {
      apiServer := some apiServerDeployOnly
      persistenceAgent := some persistenceAgentDeployOnly
      scheduledWorkflow := some scheduledWorkflowDeployOnly
      database := some { mariaDB := some mariaDBDeployOnly, externalDB := none
                         disableHealthCheck := false }
      mlPipelineUI := none
      objectStorage := some { minio := none, externalStorage := some ext
                              disableHealthCheck := false }
      mlmd := some mlmdDeployOnly
      dspVersion := "v1", engineDriver := drv } }

/-- An external-storage descriptor with no credential secret. -/
def extStorageNoCreds : ExternalStorage :=
  { extStorageSample with s3CredentialSecret := none }

/-- A desired state whose managed Minio block carries only
`deploy: true` (no image). -/
def managedMinioEmptyDspa : DSPA :=
  { managedDspa with spec := { managedDspa.spec with
      objectStorage := some { minio := some minioDeployOnly, externalStorage := none
                              disableHealthCheck := false } } }

/-- A desired state whose object-storage block has neither a Minio nor
an external-storage descriptor. -/
def noStorageDspa : DSPA :=
  { managedDspa with spec := { managedDspa.spec with
      objectStorage := some { minio := none, externalStorage := none
                              disableHealthCheck := false } } }

/-- A desired state with external storage (scheme `https`, `Secure`
unspecified) and no custom credential secret. -/
def extNoCredsDspa : DSPA :=
  { managedDspa with spec := { managedDspa.spec with
      objectStorage := some { minio := none, externalStorage := some extStorageNoCreds
                              disableHealthCheck := false } } }

theorem dbPrepare_ns (cfg : Config) (dsp : DSPA) (p : DSPAParams) :
    (dbPrepare cfg dsp p).ns = p.ns := by
  unfold dbPrepare
  cases h : externalDBOf dsp <;> simp

theorem dbPrepare_name (cfg : Config) (dsp : DSPA) (p : DSPAParams) :
    (dbPrepare cfg dsp p).name = p.name := by
  unfold dbPrepare
  cases h : externalDBOf dsp <;> simp

theorem objPrepare_ns (dsp : DSPA) (p p2 : DSPAParams)
    (h : objPrepare dsp p = .ok p2) : p2.ns = p.ns := by
  unfold objPrepare at h
  cases hext : externalStorageOf dsp <;> simp [hext] at h
  · cases hm : p.minio with
    | none => simp [hm] at h
    | some m =>
        by_cases him : m.image = "" <;> simp [hm, him] at h
        · cases h
          rfl
  · cases h
    rfl

theorem utf8Bytes_ne_nil (c : Char) : utf8Bytes c ≠ [] := by
  simp only [utf8Bytes]
  split <;> [skip; split] <;> [simp; simp; split <;> simp]

theorem strBytes_ne_nil (s : String) (h : s.data ≠ []) : strBytes s ≠ [] := by
  unfold strBytes
  cases hd : s.data with
  | nil => exact absurd hd h
  | cons c cs =>
      simp only [List.foldr_cons]
      intro hcontra
      exact utf8Bytes_ne_nil c (List.append_eq_nil.mp hcontra).1

theorem base64Encode_ne_empty (l : List Nat) (h : l ≠ []) : base64Encode l ≠ "" := by
  match l, h with
  | [a], _ =>
      intro hcontra
      have hdata := congrArg String.data hcontra
      simp [base64Encode] at hdata
  | [a, b], _ =>
      intro hcontra
      have hdata := congrArg String.data hcontra
      simp [base64Encode] at hdata
  | a :: b :: c :: rest, _ =>
      intro hcontra
      have hdata := congrArg String.data hcontra
      rw [show base64Encode (a :: b :: c :: rest)
            = String.mk [b64 (a / 4 % 64), b64 (a % 4 * 16 + b / 16),
                b64 (b % 16 * 4 + c / 64), b64 (c % 64)] ++ base64Encode rest from rfl,
          String.data_append] at hdata
      simp at hdata

theorem passwordGen_data (rnd : Nat → Nat) (n : Nat) :
    (passwordGen rnd n).data = (List.range n).map (fun i => passwordChars.getD (rnd i % 62) 'a') :=
  rfl

theorem passwordGen_length (rnd : Nat → Nat) (n : Nat) :
    (passwordGen rnd n).length = n := by
  show (passwordGen rnd n).data.length = n
  rw [passwordGen_data]
  simp

theorem passwordGen_b64_ne_empty (rnd : Nat → Nat) (n : Nat) (h : 0 < n) :
    base64Encode (strBytes (passwordGen rnd n)) ≠ "" := by
  apply base64Encode_ne_empty
  apply strBytes_ne_nil
  intro hcontra
  have := congrArg List.length hcontra
  rw [passwordGen_data] at this
  simp at this
  omega

theorem lookupData_single (k : String) (v : List Nat) :
    lookupData [(k, v)] k = v := by
  simp [lookupData]

theorem append_ne_empty (a b : String) (ha : a.length ≠ 0) : a ++ b ≠ "" := by
  intro h
  have hlen := congrArg String.length h
  rw [String.length_append, show ("" : String).length = 0 from rfl] at hlen
  omega

/-! ### Concrete sample inputs (used by witnesses and counterexamples) -/

/-! ### Claims -/

/-- C1.  For every resolution pass (`SetupDBParams` or
`SetupObjectParams`) over a store in which the referenced credential
secret already exists, the pass never reports a new secret for creation
(`createNewSecret` can only come out `false`), and the credential
fields it returns are exactly the base64 renderings of the stored data
— the found branch only reads.  (The embedding's setup functions take
the store as a pure input and return no store update, mirroring the Go
code, which issues no write; hence repeated passes leave the stored
value untouched by construction.) -/
theorem c1_existing_secret_read_only
    (rndDB rndObj : Nat → Nat → Nat) (cfg : Config) (dsp : DSPA) (store : Store)
    (p q : DSPAParams) (sec sec' : Secret)
    (hdb : store p.ns (dbLookupName dsp p) = .found sec)
    (hobj : store q.ns (objLookupName dsp q) = .found sec') :
    Except.map Prod.snd (SetupDBParams rndDB cfg dsp store p) ≠ Except.ok true
    ∧ Except.map (fun r => (r.1.dbConnection.password, r.2))
        (SetupDBParams rndDB cfg dsp store p)
      = (let pw := base64Encode (lookupData sec.data (dbLookupKey dsp p))
         if pw = "" then Except.error (dbSecretEmptyMsg (dbLookupName dsp p) (dbLookupKey dsp p))
         else Except.ok (pw, false))
    ∧ Except.map Prod.snd (SetupObjectParams rndObj dsp store q) ≠ Except.ok true
    ∧ Except.map (fun r => (r.1.objectStorageConnection.accessKeyID,
          r.1.objectStorageConnection.secretAccessKey, r.2))
        (SetupObjectParams rndObj dsp store q)
      = (objPrepare dsp q).bind (fun _ =>
          let ak := base64Encode (lookupData sec'.data (objLookupAccessKey dsp q))
          let sk := base64Encode (lookupData sec'.data (objLookupSecretKey dsp q))
          if ak = "" ∨ sk = "" then
            Except.error (objSecretEmptyMsg (objLookupName dsp q)
              (objLookupAccessKey dsp q) (objLookupSecretKey dsp q))
          else Except.ok (ak, sk, false)) := by
  have hns : (dbPrepare cfg dsp p).ns = p.ns := dbPrepare_ns cfg dsp p
  refine ⟨?_, ?_, ?_, ?_⟩
  · simp only [SetupDBParams, hns, hdb]
    by_cases hpw : base64Encode (lookupData sec.data (dbLookupKey dsp p)) = "" <;>
      simp [hpw, Except.map]
  · simp only [SetupDBParams, hns, hdb]
    by_cases hpw : base64Encode (lookupData sec.data (dbLookupKey dsp p)) = "" <;>
      simp [hpw, Except.map, withDBPassword]
  · cases hprep : objPrepare dsp q with
    | error e => simp [SetupObjectParams, hprep, Except.map]
    | ok q2 =>
        have hns2 := objPrepare_ns dsp q q2 hprep
        simp only [SetupObjectParams, hprep, hns2, hobj]
        by_cases hak : base64Encode (lookupData sec'.data (objLookupAccessKey dsp q)) = ""
            ∨ base64Encode (lookupData sec'.data (objLookupSecretKey dsp q)) = "" <;>
          simp [hak, Except.map]
  · cases hprep : objPrepare dsp q with
    | error e => simp [SetupObjectParams, hprep, Except.map, Except.bind]
    | ok q2 =>
        have hns2 := objPrepare_ns dsp q q2 hprep
        simp only [SetupObjectParams, hprep, hns2, hobj]
        by_cases hak : base64Encode (lookupData sec'.data (objLookupAccessKey dsp q)) = ""
            ∨ base64Encode (lookupData sec'.data (objLookupSecretKey dsp q)) = "" <;>
          simp [hak, Except.map, Except.bind, withObjKeys]

/-- Witness for C1: with both operator-owned secrets present in the
store, the hypotheses hold and the conclusions evaluate on the sample
managed deployment. -/
theorem c1_existing_secret_read_only_witness :
    storeFound managedParams.ns (dbLookupName managedDspa managedParams)
        = .found dbSecretSample
    ∧ storeFound managedParams.ns (objLookupName managedDspa managedParams)
        = .found objSecretSample
    ∧ Except.map Prod.snd
        (SetupDBParams rndZero cfgNone managedDspa storeFound managedParams)
        ≠ Except.ok true
    ∧ Except.map Prod.snd
        (SetupObjectParams rndZero managedDspa storeFound managedParams)
        ≠ Except.ok true := by
  have h := c1_existing_secret_read_only rndZero rndZero cfgNone managedDspa storeFound
    managedParams managedParams dbSecretSample objSecretSample (by decide) (by decide)
  exact ⟨by decide, by decide, h.1, h.2.2.1⟩

/-- C2.  When no custom credential secret is specified, a first pass
against a store missing the operator-owned secret generates material
and reports the secret for creation, and any later pass against a
store that persists exactly that material returns byte-identical
credential fields (`DBConnection.Password`;
`ObjectStorageConnection.AccessKeyID`/`SecretAccessKey`) without
reporting a creation — independently of the later pass's random
stream. -/
theorem c2_resolution_idempotent
    (rndDB rndDB2 rndObj rndObj2 : Nat → Nat → Nat) (cfg : Config) (dsp : DSPA)
    (store1 store2 : Store) (p q q2 : DSPAParams)
    (hdbc : dbCustomCreds dsp p = none)
    (h1 : store1 p.ns (DBSecretNamePfx ++ p.name) = .notFound)
    (h2 : store2 p.ns (DBSecretNamePfx ++ p.name)
        = .found (Secret.mk [(DBSecretKey, strBytes (passwordGen (rndDB 0) 12))]))
    (hobjc : objCustomCreds dsp q = none)
    (hprep : objPrepare dsp q = .ok q2)
    (ho1 : store1 q.ns ObjectStorageSecretName = .notFound)
    (ho2 : store2 q.ns ObjectStorageSecretName
        = .found (Secret.mk
            [(ObjectStorageAccessKey, strBytes (passwordGen (rndObj 0) 16)),
             (ObjectStorageSecretKey, strBytes (passwordGen (rndObj 1) 24))])) :
    SetupDBParams rndDB cfg dsp store1 p
      = .ok (withDBPassword (dbPrepare cfg dsp p)
              (base64Encode (strBytes (passwordGen (rndDB 0) 12))), true)
    ∧ SetupDBParams rndDB2 cfg dsp store2 p
      = .ok (withDBPassword (dbPrepare cfg dsp p)
              (base64Encode (strBytes (passwordGen (rndDB 0) 12))), false)
    ∧ SetupObjectParams rndObj dsp store1 q
      = .ok (withObjKeys q2 (base64Encode (strBytes (passwordGen (rndObj 0) 16)))
              (base64Encode (strBytes (passwordGen (rndObj 1) 24))), true)
    ∧ SetupObjectParams rndObj2 dsp store2 q
      = .ok (withObjKeys q2 (base64Encode (strBytes (passwordGen (rndObj 0) 16)))
              (base64Encode (strBytes (passwordGen (rndObj 1) 24))), false) := by
  have hns : (dbPrepare cfg dsp p).ns = p.ns := dbPrepare_ns cfg dsp p
  have hname : dbLookupName dsp p = DBSecretNamePfx ++ p.name := by
    simp [dbLookupName, hdbc]
  have hkey : dbLookupKey dsp p = DBSecretKey := by
    simp [dbLookupKey, hdbc]
  have hns2 : q2.ns = q.ns := objPrepare_ns dsp q q2 hprep
  have honame : objLookupName dsp q = ObjectStorageSecretName := by
    simp [objLookupName, hobjc]
  have hoak : objLookupAccessKey dsp q = ObjectStorageAccessKey := by
    simp [objLookupAccessKey, hobjc]
  have hosk : objLookupSecretKey dsp q = ObjectStorageSecretKey := by
    simp [objLookupSecretKey, hobjc]
  refine ⟨?_, ?_, ?_, ?_⟩
  · simp only [SetupDBParams, hns, hname, h1, hdbc]
  · simp only [SetupDBParams, hns, hname, hkey, h2]
    rw [lookupData_single,
        if_neg (passwordGen_b64_ne_empty (rndDB 0) 12 (by norm_num))]
  · simp only [SetupObjectParams, hprep, hns2, honame, ho1, hobjc]
  · simp only [SetupObjectParams, hprep, hns2, honame, hoak, hosk, ho2]
    rw [show lookupData
          [(ObjectStorageAccessKey, strBytes (passwordGen (rndObj 0) 16)),
           (ObjectStorageSecretKey, strBytes (passwordGen (rndObj 1) 24))]
          ObjectStorageAccessKey
        = strBytes (passwordGen (rndObj 0) 16) by simp [lookupData, ObjectStorageAccessKey]]
    rw [show lookupData
          [(ObjectStorageAccessKey, strBytes (passwordGen (rndObj 0) 16)),
           (ObjectStorageSecretKey, strBytes (passwordGen (rndObj 1) 24))]
          ObjectStorageSecretKey
        = strBytes (passwordGen (rndObj 1) 24) by
          simp [lookupData, ObjectStorageAccessKey, ObjectStorageSecretKey]]
    rw [if_neg]
    intro hcontra
    cases hcontra with
    | inl hl => exact passwordGen_b64_ne_empty (rndObj 0) 16 (by norm_num) hl
    | inr hr => exact passwordGen_b64_ne_empty (rndObj 1) 24 (by norm_num) hr

/-- Witness for C2: both passes evaluate on the sample managed
deployment, with identical credential fields and createNewSecret true
then false. -/
theorem c2_resolution_idempotent_witness :
    dbCustomCreds managedDspa managedParams = none
    ∧ objPrepare managedDspa managedParams = .ok managedObjPrepared
    ∧ SetupDBParams rndZero cfgNone managedDspa storeEmpty managedParams
      = .ok (withDBPassword (dbPrepare cfgNone managedDspa managedParams)
              (base64Encode (strBytes (passwordGen (rndZero 0) 12))), true)
    ∧ SetupDBParams rndZero cfgNone managedDspa storePersisted managedParams
      = .ok (withDBPassword (dbPrepare cfgNone managedDspa managedParams)
              (base64Encode (strBytes (passwordGen (rndZero 0) 12))), false)
    ∧ SetupObjectParams rndZero managedDspa storeEmpty managedParams
      = .ok (withObjKeys managedObjPrepared
              (base64Encode (strBytes (passwordGen (rndZero 0) 16)))
              (base64Encode (strBytes (passwordGen (rndZero 1) 24))), true)
    ∧ SetupObjectParams rndZero managedDspa storePersisted managedParams
      = .ok (withObjKeys managedObjPrepared
              (base64Encode (strBytes (passwordGen (rndZero 0) 16)))
              (base64Encode (strBytes (passwordGen (rndZero 1) 24))), false) := by
  have h := c2_resolution_idempotent rndZero rndZero rndZero rndZero cfgNone managedDspa
    storeEmpty storePersisted managedParams managedParams managedObjPrepared
    (by decide) (by decide) (by decide) (by decide) (by rfl) (by decide) (by decide)
  exact ⟨by decide, by rfl, h.1, h.2.1, h.2.2.1, h.2.2.2⟩

/-- C3.  When the external database (resp. external object-storage)
descriptor is present, the resolved connection values are the external
descriptor's values, the store lookup uses the external descriptor's
credential reference (here supplied, as the CRD schema requires), and
the resolved connection and creation flag are unchanged under ANY
replacement of the managed MariaDB (resp. Minio) block. -/
theorem c3_external_descriptor_wins
    (rnd rnd2 : Nat → Nat → Nat) (cfg : Config) (dsp : DSPA) (store : Store)
    (p q : DSPAParams) (m : Option MariaDB) (mo : Option Minio)
    (ext : ExternalDB) (cred : SecretKeyValue)
    (ext2 : ExternalStorage) (cred2 : S3CredentialSecret)
    (hext : externalDBOf dsp = some ext)
    (hcred : ext.passwordSecret = some cred)
    (hext2 : externalStorageOf dsp = some ext2)
    (hcred2 : ext2.s3CredentialSecret = some cred2) :
    (dbPrepare cfg dsp p).dbConnection.host = ext.host
    ∧ (dbPrepare cfg dsp p).dbConnection.port = ext.port
    ∧ (dbPrepare cfg dsp p).dbConnection.username = ext.username
    ∧ (dbPrepare cfg dsp p).dbConnection.dbName = ext.dbName
    ∧ dbLookupName dsp p = cred.name
    ∧ dbLookupKey dsp p = cred.key
    ∧ Except.map (fun r => (r.1.dbConnection, r.2))
        (SetupDBParams rnd cfg dsp store { p with mariaDB := m })
      = Except.map (fun r => (r.1.dbConnection, r.2)) (SetupDBParams rnd cfg dsp store p)
    ∧ Except.map (fun r => r.objectStorageConnection.bucket) (objPrepare dsp q)
      = .ok ext2.bucket
    ∧ Except.map (fun r => r.objectStorageConnection.host) (objPrepare dsp q)
      = .ok ext2.host
    ∧ Except.map (fun r => r.objectStorageConnection.scheme) (objPrepare dsp q)
      = .ok ext2.scheme
    ∧ Except.map (fun r => r.objectStorageConnection.port) (objPrepare dsp q)
      = .ok ext2.port
    ∧ objLookupName dsp q = cred2.secretName
    ∧ objLookupAccessKey dsp q = cred2.accessKey
    ∧ objLookupSecretKey dsp q = cred2.secretKey
    ∧ Except.map (fun r => (r.1.objectStorageConnection, r.2))
        (SetupObjectParams rnd2 dsp store { q with minio := mo })
      = Except.map (fun r => (r.1.objectStorageConnection, r.2))
          (SetupObjectParams rnd2 dsp store q) := by
  have e1 : dbPrepare cfg dsp { p with mariaDB := m }
      = { dbPrepare cfg dsp p with mariaDB := m } := by
    simp [dbPrepare, hext]
  have ecust : dbCustomCreds dsp { p with mariaDB := m } = dbCustomCreds dsp p := by
    simp [dbCustomCreds, hext]
  have ename : dbLookupName dsp { p with mariaDB := m } = dbLookupName dsp p := by
    simp [dbLookupName, ecust, dbCustomCreds, hext]
  have ekey : dbLookupKey dsp { p with mariaDB := m } = dbLookupKey dsp p := by
    simp [dbLookupKey, ecust, dbCustomCreds, hext]
  refine ⟨?_, ?_, ?_, ?_, ?_, ?_, ?_, ?_, ?_, ?_, ?_, ?_, ?_, ?_, ?_⟩
  · simp [dbPrepare, hext]
  · simp [dbPrepare, hext]
  · simp [dbPrepare, hext]
  · simp [dbPrepare, hext]
  · simp [dbLookupName, dbCustomCreds, hext, hcred]
  · simp [dbLookupKey, dbCustomCreds, hext, hcred]
  · simp only [SetupDBParams, e1, ecust, ename, ekey]
    have hnsm : ({ dbPrepare cfg dsp p with mariaDB := m } : DSPAParams).ns
        = (dbPrepare cfg dsp p).ns := rfl
    rw [hnsm]
    cases hs : store (dbPrepare cfg dsp p).ns (dbLookupName dsp p) with
    | notFound =>
        cases hc : dbCustomCreds dsp p <;> simp [Except.map, withDBPassword]
    | transientError => simp [Except.map]
    | found sec =>
        by_cases hpw : base64Encode (lookupData sec.data (dbLookupKey dsp p)) = "" <;>
          simp [hpw, Except.map, withDBPassword]
  · simp [objPrepare, hext2, Except.map]
  · simp [objPrepare, hext2, Except.map]
  · simp [objPrepare, hext2, Except.map]
  · simp [objPrepare, hext2, Except.map]
  · simp [objLookupName, objCustomCreds, hext2, hcred2]
  · simp [objLookupAccessKey, objCustomCreds, hext2, hcred2]
  · simp [objLookupSecretKey, objCustomCreds, hext2, hcred2]
  · have e1o : objPrepare dsp { q with minio := mo }
        = Except.map (fun r => { r with minio := mo }) (objPrepare dsp q) := by
      simp [objPrepare, hext2, Except.map]
    have ecusto : objCustomCreds dsp { q with minio := mo } = objCustomCreds dsp q := by
      simp [objCustomCreds, hext2]
    have enameo : objLookupName dsp { q with minio := mo } = objLookupName dsp q := by
      simp [objLookupName, ecusto]
    have eako : objLookupAccessKey dsp { q with minio := mo } = objLookupAccessKey dsp q := by
      simp [objLookupAccessKey, ecusto]
    have esko : objLookupSecretKey dsp { q with minio := mo } = objLookupSecretKey dsp q := by
      simp [objLookupSecretKey, ecusto]
    cases hoo : objPrepare dsp q with
    | error e => simp [SetupObjectParams, e1o, hoo, Except.map]
    | ok X =>
        simp only [SetupObjectParams, e1o, hoo, Except.map, ecusto, enameo, eako, esko]
        have hnsm : ({ X with minio := mo } : DSPAParams).ns = X.ns := rfl
        rw [hnsm]
        cases hs : store X.ns (objLookupName dsp q) with
        | notFound =>
            cases hc : objCustomCreds dsp q <;> simp [Except.map, withObjKeys]
        | transientError => simp [Except.map]
        | found sec =>
            by_cases hak : base64Encode (lookupData sec.data (objLookupAccessKey dsp q)) = ""
                ∨ base64Encode (lookupData sec.data (objLookupSecretKey dsp q)) = "" <;>
              simp [hak, Except.map, withObjKeys]

/-- Witness for C3: on the sample external deployment the resolved
values come from the external descriptors and replacing the managed
blocks changes nothing observable. -/
theorem c3_external_descriptor_wins_witness :
    externalDBOf externalDspa = some extDBSample
    ∧ externalStorageOf externalDspa = some extStorageSample
    ∧ (dbPrepare cfgNone externalDspa externalParams).dbConnection.host = "db.example.com"
    ∧ dbLookupName externalDspa externalParams = "my-db-secret"
    ∧ objLookupName externalDspa externalParams = "my-s3-secret"
    ∧ Except.map (fun r => (r.1.dbConnection, r.2))
        (SetupDBParams rndZero cfgNone externalDspa storeEmpty
          { externalParams with mariaDB := none })
      = Except.map (fun r => (r.1.dbConnection, r.2))
          (SetupDBParams rndZero cfgNone externalDspa storeEmpty externalParams) := by
  have h := c3_external_descriptor_wins rndZero rndZero cfgNone externalDspa storeEmpty
    externalParams externalParams none none extDBSample
    (SecretKeyValue.mk "my-db-secret" "pw") extStorageSample
    (S3CredentialSecret.mk "my-s3-secret" "ak" "sk")
    (by decide) (by decide) (by decide) (by decide)
  exact ⟨by decide, by decide, h.1, h.2.2.2.2.1, h.2.2.2.2.2.2.2.2.2.2.2.1,
    h.2.2.2.2.2.2.1⟩

/-- C4.  When a custom (user-owned) credential secret is specified and
the store reports it NotFound, resolution fails with the
secret-missing error — the `Except.error` result carries no parameter
record, so no credential material is generated and no secret is
reported for creation; this holds for the database and the
object-storage credential alike. -/
theorem c4_custom_secret_missing_fails
    (rnd rnd2 : Nat → Nat → Nat) (cfg : Config) (dsp : DSPA) (store : Store)
    (p q q2 : DSPAParams) (cred : SecretKeyValue) (cred2 : S3CredentialSecret)
    (hc : dbCustomCreds dsp p = some cred)
    (hnf : store p.ns cred.name = .notFound)
    (hc2 : objCustomCreds dsp q = some cred2)
    (hprep : objPrepare dsp q = .ok q2)
    (hnf2 : store q.ns cred2.secretName = .notFound) :
    SetupDBParams rnd cfg dsp store p = .error (dbSecretMissingMsg cred.name)
    ∧ SetupObjectParams rnd2 dsp store q = .error (objSecretMissingMsg cred2.secretName) := by
  have hns : (dbPrepare cfg dsp p).ns = p.ns := dbPrepare_ns cfg dsp p
  have hname : dbLookupName dsp p = cred.name := by simp [dbLookupName, hc]
  have hns2 : q2.ns = q.ns := objPrepare_ns dsp q q2 hprep
  have honame : objLookupName dsp q = cred2.secretName := by simp [objLookupName, hc2]
  constructor
  · simp only [SetupDBParams, hns, hname, hnf, hc]
  · simp only [SetupObjectParams, hprep, hns2, honame, hnf2, hc2]

/-- Witness for C4: the sample external deployment names
`my-db-secret` and `my-s3-secret`, both absent from the empty store,
and both passes fail with the secret-missing errors. -/
theorem c4_custom_secret_missing_fails_witness :
    dbCustomCreds externalDspa externalParams
        = some (SecretKeyValue.mk "my-db-secret" "pw")
    ∧ objCustomCreds externalDspa externalParams
        = some (S3CredentialSecret.mk "my-s3-secret" "ak" "sk")
    ∧ SetupDBParams rndZero cfgNone externalDspa storeEmpty externalParams
        = .error (dbSecretMissingMsg "my-db-secret")
    ∧ SetupObjectParams rndZero externalDspa storeEmpty externalParams
        = .error (objSecretMissingMsg "my-s3-secret") := by
  have h := c4_custom_secret_missing_fails rndZero rndZero cfgNone externalDspa storeEmpty
    externalParams externalParams externalObjPrepared
    (SecretKeyValue.mk "my-db-secret" "pw") (S3CredentialSecret.mk "my-s3-secret" "ak" "sk")
    (by decide) (by decide) (by decide) (by rfl) (by decide)
  exact ⟨by decide, by decide, h.1, h.2⟩

/-- Counterexample for C5: on a managed deployment with no custom
credential secret and resource name `sample`, the object-storage
credential lookup uses the fixed constant `mlpipeline-minio-artifact`,
which does not end in — indeed does not involve — the resource name,
so the object-storage secret name is NOT of the form
`<fixed-prefix>-<resource-name>`. -/
theorem c5_object_secret_name_counterexample :
    objCustomCreds managedDspa managedParams = none
    ∧ managedParams.name = "sample"
    ∧ objLookupName managedDspa managedParams = "mlpipeline-minio-artifact"
    ∧ ¬ List.IsSuffix "sample".data "mlpipeline-minio-artifact".data := by
  refine ⟨by decide, by decide, by decide, by decide⟩

/-- C5 (amended).  When no custom credential secret is specified, the
database credential lookup uses the operator-owned identity
`ds-pipeline-db-<resource-name>` with key `password` (also recorded in
the resolved connection), while the object-storage credential lookup
uses the FIXED secret name `mlpipeline-minio-artifact` (with keys
`accesskey`/`secretkey`), which is independent of the resource name;
each pass consults the store only at its respective identity. -/
theorem c5_operator_owned_identity
    (rnd rnd2 : Nat → Nat → Nat) (cfg : Config) (dsp : DSPA)
    (s1 s2 t1 t2 : Store) (p q : DSPAParams)
    (hdb : dbCustomCreds dsp p = none) (hobj : objCustomCreds dsp q = none)
    (hagree : s1 p.ns (DBSecretNamePfx ++ p.name) = s2 p.ns (DBSecretNamePfx ++ p.name))
    (hagree2 : t1 q.ns ObjectStorageSecretName = t2 q.ns ObjectStorageSecretName) :
    dbLookupName dsp p = DBSecretNamePfx ++ p.name
    ∧ dbLookupKey dsp p = DBSecretKey
    ∧ (dbPrepare cfg dsp p).dbConnection.credentialsSecret
        = some { name := DBSecretNamePfx ++ p.name, key := DBSecretKey }
    ∧ objLookupName dsp q = ObjectStorageSecretName
    ∧ objLookupAccessKey dsp q = ObjectStorageAccessKey
    ∧ objLookupSecretKey dsp q = ObjectStorageSecretKey
    ∧ SetupDBParams rnd cfg dsp s1 p = SetupDBParams rnd cfg dsp s2 p
    ∧ SetupObjectParams rnd2 dsp t1 q = SetupObjectParams rnd2 dsp t2 q := by
  have hname : dbLookupName dsp p = DBSecretNamePfx ++ p.name := by
    simp [dbLookupName, hdb]
  have honame : objLookupName dsp q = ObjectStorageSecretName := by
    simp [objLookupName, hobj]
  refine ⟨hname, by simp [dbLookupKey, hdb], ?_, honame,
    by simp [objLookupAccessKey, hobj], by simp [objLookupSecretKey, hobj], ?_, ?_⟩
  · cases hx : externalDBOf dsp <;> simp [dbPrepare, hx]
  · simp only [SetupDBParams, dbPrepare_ns, hname]
    rw [hagree]
  · simp only [SetupObjectParams]
    cases hoo : objPrepare dsp q with
    | error e => rfl
    | ok X =>
        have hns2 : X.ns = q.ns := objPrepare_ns dsp q X hoo
        simp only [hns2, honame]
        rw [hagree2]

/-- Witness for C5: on the sample managed deployment the lookups use
the operator-owned identities and a store differing only at an
unrelated secret yields identical resolution results. -/
theorem c5_operator_owned_identity_witness :
    dbCustomCreds managedDspa managedParams = none
    ∧ objCustomCreds managedDspa managedParams = none
    ∧ dbLookupName managedDspa managedParams = "ds-pipeline-db-sample"
    ∧ objLookupName managedDspa managedParams = "mlpipeline-minio-artifact"
    ∧ SetupDBParams rndZero cfgNone managedDspa storeEmpty managedParams
      = SetupDBParams rndZero cfgNone managedDspa storeNoise managedParams
    ∧ SetupObjectParams rndZero managedDspa storeEmpty managedParams
      = SetupObjectParams rndZero managedDspa storeNoise managedParams := by
  have h := c5_operator_owned_identity rndZero rndZero cfgNone managedDspa
    storeEmpty storeNoise storeEmpty storeNoise managedParams managedParams
    (by decide) (by decide) (by decide) (by decide)
  exact ⟨by decide, by decide, h.1, h.2.2.2.1, h.2.2.2.2.2.2.1, h.2.2.2.2.2.2.2⟩

/-- C6 (code bug).  With version v2 and the unrecognized engine driver
`rocket` but no MLMD block, `ExtractParams` SUCCEEDS — the driver check
at the `ExtractParams` level is commented out in the source — and the
API-server image is silently defaulted from the legacy path (to the
sentinel, under an empty registry), contradicting the claim that an
unrecognized driver is resolution-fatal.  Moreover
`UsingTektonEngineDriver` compares `DSPVersion` (not `EngineDriver`)
against `"tekton"`, so the RECOGNIZED driver `tekton` is classified as
illegal and rejected whenever the MLMD block is present. -/
theorem c6_unrecognized_driver_not_rejected :
    (ExtractParams rndZero rndZero cfgNone storeEmpty bogusDriverDspa).isOk = true
    ∧ Except.map (fun r => r.1.apiServer.map APIServer.image)
        (ExtractParams rndZero rndZero cfgNone storeEmpty bogusDriverDspa)
      = .ok (some DefaultImageValue)
    ∧ UsingV2Pipelines bogusDriverDspa = true
    ∧ UsingArgoEngineDriver bogusDriverDspa = false
    ∧ UsingTektonEngineDriver bogusDriverDspa = false
    ∧ tektonDriverDspa.spec.engineDriver = "tekton"
    ∧ UsingTektonEngineDriver tektonDriverDspa = false
    ∧ ExtractParams rndZero rndZero cfgNone storeEmpty tektonDriverDspa
      = .error (illegalEngineDriverMsg "tekton") := by
  refine ⟨by rfl, by rfl, by decide, by decide, by decide, by decide, by decide, by rfl⟩

/-- C7.  With no external database, no MariaDB block and the
operator-owned secret absent, `SetupDBParams` succeeds, reports a new
secret for creation under `ds-pipeline-db-<name>` with key `password`,
resolves host `mariadb-<name>.<namespace>.svc.cluster.local`, port
`3306`, username `mlpipeline`, and a password that is the base64
encoding of a freshly generated 12-character value. -/
theorem c7_managed_db_generation
    (rnd : Nat → Nat → Nat) (cfg : Config) (dsp : DSPA) (store : Store) (p : DSPAParams)
    (hext : externalDBOf dsp = none)
    (hm : p.mariaDB = none)
    (hnf : store p.ns (DBSecretNamePfx ++ p.name) = .notFound) :
    SetupDBParams rnd cfg dsp store p
      = .ok (withDBPassword (dbPrepare cfg dsp p)
              (base64Encode (strBytes (passwordGen (rnd 0) 12))), true)
    ∧ (dbPrepare cfg dsp p).dbConnection.host
        = "mariadb-" ++ p.name ++ "." ++ p.ns ++ ".svc.cluster.local"
    ∧ (dbPrepare cfg dsp p).dbConnection.port = "3306"
    ∧ (dbPrepare cfg dsp p).dbConnection.username = "mlpipeline"
    ∧ (dbPrepare cfg dsp p).dbConnection.dbName = "mlpipeline"
    ∧ (dbPrepare cfg dsp p).dbConnection.credentialsSecret
        = some { name := "ds-pipeline-db-" ++ p.name, key := "password" }
    ∧ (passwordGen (rnd 0) 12).length = 12 := by
  have hdbc : dbCustomCreds dsp p = none := by simp [dbCustomCreds, hext, hm]
  have hname : dbLookupName dsp p = DBSecretNamePfx ++ p.name := by
    simp [dbLookupName, hdbc]
  refine ⟨?_, ?_, ?_, ?_, ?_, ?_, passwordGen_length (rnd 0) 12⟩
  · simp only [SetupDBParams, dbPrepare_ns, hname, hnf, hdbc]
  · simp only [dbPrepare, hext, hm]
    simp [setStringDefault, MariaDBHostPfx]
  · simp [dbPrepare, hext, hm, MariaDBHostPort]
  · simp [dbPrepare, hext, hm, setStringDefault, MariaDBUser]
  · simp [dbPrepare, hext, hm, setStringDefault, MariaDBName]
  · simp [dbPrepare, hext, hm]
    exact ⟨rfl, rfl⟩

/-- Witness for C7: concrete run on a desired state without a database
block and an empty store. -/
theorem c7_managed_db_generation_witness :
    externalDBOf noDbDspa = none
    ∧ noDbParams.mariaDB = none
    ∧ SetupDBParams rndZero cfgNone noDbDspa storeEmpty noDbParams
      = .ok (withDBPassword (dbPrepare cfgNone noDbDspa noDbParams)
              (base64Encode (strBytes (passwordGen (rndZero 0) 12))), true)
    ∧ (dbPrepare cfgNone noDbDspa noDbParams).dbConnection.host
        = "mariadb-sample.dspa.svc.cluster.local"
    ∧ (passwordGen (rndZero 0) 12).length = 12 := by
  have h := c7_managed_db_generation rndZero cfgNone noDbDspa storeEmpty noDbParams
    (by decide) (by decide) (by decide)
  exact ⟨by decide, by decide, h.1, by decide, h.2.2.2.2.2.2⟩

/-- Counterexample for C8: a UI block carrying only `deploy: true` does
not resolve with defaults — resolution fails outright, because the UI
image is required. -/
theorem c8_deploy_only_ui_counterexample :
    ExtractParams rndZero rndZero cfgNone storeEmpty
      { managedDspa with spec := { managedDspa.spec with
          mlPipelineUI := some uiDeployOnly } }
      = .error uiNoImageMsg := by
  rfl

/-- C8 (amended).  For the API-server, persistence-agent,
scheduled-workflow, MariaDB and MLMD blocks set to only
`{deploy: true}`, resolution succeeds and every resolver-filled field
(images, resources, config-map reference, username/db name, gRPC port)
comes out non-empty, provided the registry never maps a key to the
empty string.  The UI and managed-Minio blocks are the exception the
source carves out: a deploy-only UI block makes `ExtractParams` fail
and a deploy-only Minio block makes `SetupObjectParams` fail, both with
the image-required error, instead of being defaulted. -/
theorem c8_deploy_only_defaulting
    (rndDB rndObj rndU rndM : Nat → Nat → Nat) (cfg : Config) (store storeU : Store)
    (nm nsp drv : String) (ext : ExternalStorage)
    (dspUI dspM : DSPA) (q : DSPAParams)
    (hcfg : ∀ k v, cfg k = some v → v ≠ "")
    (hsec : ext.s3CredentialSecret = none)
    (hs1 : store nsp (DBSecretNamePfx ++ nm) = .notFound)
    (hs2 : store nsp ObjectStorageSecretName = .notFound)
    (hui : dspUI.spec.mlPipelineUI = some uiDeployOnly)
    (hqm : q.minio = some minioDeployOnly)
    (hqext : externalStorageOf dspM = none) :
    Except.map (fun r => resolvedFilled r.1)
      (ExtractParams rndDB rndObj cfg store (deployOnlyDspa nm nsp drv ext)) = .ok true
    ∧ ExtractParams rndU rndM cfg storeU dspUI = .error uiNoImageMsg
    ∧ SetupObjectParams rndM dspM storeU q = .error minioNoImageMsg := by
  have hG : ∀ k, (GetStringConfigWithDefault cfg k DefaultImageValue != "") = true := by
    intro k
    cases hc : cfg k with
    | none => simp [GetStringConfigWithDefault, hc, DefaultImageValue]
    | some v =>
        have hv := hcfg k v hc
        simp [GetStringConfigWithDefault, hc, hv]
  refine ⟨?_, ?_, ?_⟩
  · simp [ExtractParams, initParams, deployOnlyDspa, resolveAPIServer,
      resolvePersistenceAgent, resolveScheduledWorkflow, SetupMLMD, SetupDBParams,
      SetupObjectParams, dbPrepare, objPrepare, dbCustomCreds, dbLookupName,
      externalDBOf, externalStorageOf, objCustomCreds, objLookupName,
      UsingV2Pipelines, apiServerImagePaths, persistenceAgentImagePath,
      scheduledWorkflowImagePath, setStringDefault, setResourcesDefault,
      apiServerDeployOnly, persistenceAgentDeployOnly, scheduledWorkflowDeployOnly,
      mariaDBDeployOnly, mlmdDeployOnly, hsec, hs1, hs2, hG,
      withDBPassword, withObjKeys, Except.map, resolvedFilled, apiServerFilled,
      paFilled, swFilled, mariaDBFilled, mlmdFilled, MlmdGrpcPort,
      ArtifactScriptConfigMapKey, MariaDBUser, MariaDBName]
    exact append_ne_empty ArtifactScriptConfigMapNamePfx nm (by decide)
  · cases happ : dspUI.spec.apiServer <;>
      cases hpa : dspUI.spec.persistenceAgent <;>
      cases hsw : dspUI.spec.scheduledWorkflow <;>
      simp [ExtractParams, initParams, happ, hpa, hsw, hui,
        resolveMlPipelineUI, uiDeployOnly]
  · simp only [SetupObjectParams, objPrepare, hqext, hqm]
    simp [minioDeployOnly]

/-- Witness for C8: a concrete deploy-only desired state, empty
registry and empty store. -/
theorem c8_deploy_only_defaulting_witness :
    (∀ k v, cfgNone k = some v → v ≠ "")
    ∧ Except.map (fun r => resolvedFilled r.1)
        (ExtractParams rndZero rndZero cfgNone storeEmpty
          (deployOnlyDspa "sample" "dspa" "" extStorageNoCreds)) = .ok true
    ∧ SetupObjectParams rndZero managedMinioEmptyDspa storeEmpty
        (initParams cfgNone managedMinioEmptyDspa) = .error minioNoImageMsg := by
  have h := c8_deploy_only_defaulting rndZero rndZero rndZero rndZero cfgNone
    storeEmpty storeEmpty "sample" "dspa" "" extStorageNoCreds
    { managedDspa with spec := { managedDspa.spec with
        mlPipelineUI := some uiDeployOnly } }
    managedMinioEmptyDspa (initParams cfgNone managedMinioEmptyDspa)
    (fun k v hkv => by simp [cfgNone] at hkv) (by decide) (by decide) (by decide)
    (by decide) (by decide) (by decide)
  exact ⟨fun k v hkv => by simp [cfgNone] at hkv, h.1, h.2.2⟩

/-- C9.  With no external-storage descriptor, a missing Minio block or
a Minio block without an image makes `SetupObjectParams` fail with the
corresponding configuration error, and the outcome is identical for
every store — the failure is raised before any secret-store access. -/
theorem c9_managed_storage_requires_image
    (rnd : Nat → Nat → Nat) (dsp : DSPA) (store store' : Store) (p : DSPAParams) (m : Minio)
    (hext : externalStorageOf dsp = none)
    (hbad : p.minio = none ∨ (p.minio = some m ∧ m.image = "")) :
    SetupObjectParams rnd dsp store p
      = .error (if p.minio = none then objNeitherSpecifiedMsg else minioNoImageMsg)
    ∧ SetupObjectParams rnd dsp store p = SetupObjectParams rnd dsp store' p := by
  cases hbad with
  | inl hm => simp [SetupObjectParams, objPrepare, hext, hm]
  | inr hmi =>
      obtain ⟨hm, himg⟩ := hmi
      simp [SetupObjectParams, objPrepare, hext, hm, himg]

/-- Witness for C9: both configuration errors fire on concrete desired
states, identically over two different stores. -/
theorem c9_managed_storage_requires_image_witness :
    externalStorageOf noStorageDspa = none
    ∧ SetupObjectParams rndZero noStorageDspa storeEmpty (initParams cfgNone noStorageDspa)
      = .error objNeitherSpecifiedMsg
    ∧ SetupObjectParams rndZero noStorageDspa storeEmpty (initParams cfgNone noStorageDspa)
      = SetupObjectParams rndZero noStorageDspa storeFound (initParams cfgNone noStorageDspa) := by
  have h := c9_managed_storage_requires_image rndZero noStorageDspa storeEmpty storeFound
    (initParams cfgNone noStorageDspa) minioDeployOnly (by decide) (Or.inl (by decide))
  exact ⟨by decide, h.1, h.2⟩

/-- C10.  With an external object-storage descriptor, the resolved
`Secure` flag is the descriptor's explicit value when supplied, and is
otherwise inferred as true exactly when the scheme is `https`; the
flag survives credential resolution unchanged. -/
theorem c10_secure_flag_inference
    (rnd : Nat → Nat → Nat) (dsp : DSPA) (store : Store) (p : DSPAParams)
    (ext : ExternalStorage)
    (hext : externalStorageOf dsp = some ext) :
    Except.map (fun r => r.objectStorageConnection.secure) (objPrepare dsp p)
      = .ok (some (match ext.secure with
                   | none => if ext.scheme = "https" then true else false
                   | some b => b))
    ∧ Except.map (fun r => r.1.objectStorageConnection.secure)
        (SetupObjectParams rnd dsp store p)
      = Except.map (fun _ => (some (match ext.secure with
                   | none => if ext.scheme = "https" then true else false
                   | some b => b) : Option Bool))
          (SetupObjectParams rnd dsp store p) := by
  have h1 : Except.map (fun r => r.objectStorageConnection.secure) (objPrepare dsp p)
      = .ok (some (match ext.secure with
                   | none => if ext.scheme = "https" then true else false
                   | some b => b)) := by
    simp [objPrepare, hext, Except.map]
  refine ⟨h1, ?_⟩
  cases hoo : objPrepare dsp p with
  | error e => simp [objPrepare, hext] at hoo
  | ok P =>
      rw [hoo] at h1
      simp only [Except.map] at h1
      have hsec : P.objectStorageConnection.secure
          = some (match ext.secure with
                  | none => if ext.scheme = "https" then true else false
                  | some b => b) := Except.ok.inj h1
      simp only [SetupObjectParams, hoo]
      cases hs : store P.ns (objLookupName dsp p) with
      | notFound =>
          cases hc : objCustomCreds dsp p <;> simp [Except.map, withObjKeys, hsec]
      | transientError => simp [Except.map]
      | found sec =>
          by_cases hak : base64Encode (lookupData sec.data (objLookupAccessKey dsp p)) = ""
              ∨ base64Encode (lookupData sec.data (objLookupSecretKey dsp p)) = "" <;>
            simp [hak, Except.map, withObjKeys, hsec]

/-- Witness for C10: scheme `https` with `Secure` unspecified resolves
to secure = true on a concrete run. -/
theorem c10_secure_flag_inference_witness :
    externalStorageOf extNoCredsDspa = some extStorageNoCreds
    ∧ extStorageNoCreds.secure = none
    ∧ extStorageNoCreds.scheme = "https"
    ∧ Except.map (fun r => r.objectStorageConnection.secure)
        (objPrepare extNoCredsDspa (initParams cfgNone extNoCredsDspa))
      = .ok (some true) := by
  have h := c10_secure_flag_inference rndZero extNoCredsDspa storeEmpty
    (initParams cfgNone extNoCredsDspa) extStorageNoCreds (by decide)
  exact ⟨by decide, by decide, by decide, h.1⟩

end DSPO
